import Mathlib

/-!
Verification of the moor storage/transaction core against its specification.

The development shallowly embeds the Rust sources:
  * crates/values/src/model/mod.rs   (error enum and its MOO error-code translation)
  * crates/db/src/db_worldstate.rs   (the WorldState transaction facade)
  * crates/db/src/worldstate_db.rs   (the commit pipeline / processing thread)
  * moor-lib/src/db/rocksdb/tx_server.rs (the per-transaction message server)

Components whose implementation is not part of the repository snapshot
(the GlobalCache check/apply primitives, the Perms permission helpers, the
DbTransaction relational implementation) are modelled from the specification
text; every such definition carries a doc comment starting with
"Modelled from the spec:".
-/

namespace Moor

/-- Object identifier: a stable signed integer. -/
abbrev Objid := Int

/-- Modelled from the spec: the sentinel Objid denoting "no object". -/
def NOTHING : Objid := (-1 : Int)

/-- Object flag bits, from the data model: {Read, Write, Fertile, Programmer, Wizard, User}. -/
inductive ObjFlag where
  | read
  | write
  | fertile
  | programmer
  | wizard
  | user
deriving DecidableEq, Repr

/-- BitEnum over ObjFlag: a finite bit-set, embedded as one Boolean per flag. -/
structure ObjFlags where
  read : Bool
  write : Bool
  fertile : Bool
  programmer : Bool
  wizard : Bool
  user : Bool
deriving DecidableEq, Repr

namespace ObjFlags

def empty : ObjFlags := ⟨false, false, false, false, false, false⟩

/-- BitEnum::contains. -/
def contains (f : ObjFlags) : ObjFlag → Bool
  | .read => f.read
  | .write => f.write
  | .fertile => f.fertile
  | .programmer => f.programmer
  | .wizard => f.wizard
  | .user => f.user

/-- BitEnum::set. -/
def set (f : ObjFlags) : ObjFlag → ObjFlags
  | .read => { f with read := true }
  | .write => { f with write := true }
  | .fertile => { f with fertile := true }
  | .programmer => { f with programmer := true }
  | .wizard => { f with wizard := true }
  | .user => { f with user := true }

/-- BitEnum::clear. -/
def clear (f : ObjFlags) : ObjFlag → ObjFlags
  | .read => { f with read := false }
  | .write => { f with write := false }
  | .fertile => { f with fertile := false }
  | .programmer => { f with programmer := false }
  | .wizard => { f with wizard := false }
  | .user => { f with user := false }

end ObjFlags

/-- Property flag bits {Read, Write, Chown}, from the data model. -/
structure PropFlags where
  read : Bool
  write : Bool
  chown : Bool
deriving DecidableEq, Repr

/-- Dynamic (tagged variant) values, from the data model: the cases used by the
facade code under verification. -/
inductive Var where
  | VInt (i : Int)
  | VStr (s : String)
  | VObj (o : Objid)
  | VList (xs : List Var)
  | VErr
  | VNone
deriving Repr

/-- ObjAttr tags (attribute names used by ObjectAttributeError). -/
inductive ObjAttr where
  | owner
  | name
  | parent
  | location
  | flags
deriving DecidableEq, Repr

/-- WorldStateError, mirroring the enum in crates/values/src/model/mod.rs.
The Vid payload of InvalidVerb is embedded as an Int. -/
inductive WorldStateError where
  | ObjectNotFound (o : Objid)
  | ObjectAlreadyExists (o : Objid)
  | ObjectAttributeError (a : ObjAttr) (o : Objid)
  | RecursiveMove (from_ into : Objid)
  | ObjectPermissionDenied
  | PropertyNotFound (o : Objid) (n : String)
  | PropertyPermissionDenied
  | PropertyDefinitionNotFound (o : Objid) (n : String)
  | DuplicatePropertyDefinition (o : Objid) (n : String)
  | PropertyTypeMismatch
  | VerbNotFound (o : Objid) (n : String)
  | InvalidVerb (v : Int)
  | VerbDecodeError (o : Objid) (n : String)
  | VerbPermissionDenied
  | DuplicateVerb (o : Objid) (n : String)
  | FailedMatch (s : String)
  | AmbiguousMatch (s : String)
  | DatabaseError (s : String)
deriving DecidableEq, Repr

/-- MOO-level error codes (the subset produced by to_error_code). -/
inductive MooError where
  | E_INVIND
  | E_PERM
  | E_RECMOVE
  | E_VERBNF
  | E_INVARG
  | E_PROPNF
  | E_TYPE
deriving DecidableEq, Repr

/-- WorldStateError::to_error_code from crates/values/src/model/mod.rs.
The catch-all arm panics in Rust; the panic is embedded as none. -/
def WorldStateError.to_error_code : WorldStateError → Option MooError
  | .ObjectNotFound _ => some .E_INVIND
  | .ObjectPermissionDenied => some .E_PERM
  | .RecursiveMove _ _ => some .E_RECMOVE
  | .VerbNotFound _ _ => some .E_VERBNF
  | .VerbPermissionDenied => some .E_PERM
  | .InvalidVerb _ => some .E_VERBNF
  | .DuplicateVerb _ _ => some .E_INVARG
  | .PropertyNotFound _ _ => some .E_PROPNF
  | .PropertyPermissionDenied => some .E_PERM
  | .PropertyDefinitionNotFound _ _ => some .E_PROPNF
  | .DuplicatePropertyDefinition _ _ => some .E_INVARG
  | .PropertyTypeMismatch => some .E_TYPE
  | _ => none

/-! ## Transaction facade state

The DbTransaction implementation (a working set over the global caches) is not
part of the repository snapshot; only its trait (crates/db/src/db_tx.rs) and its
caller (crates/db/src/db_worldstate.rs) are. The state visible through the trait
is embedded as association lists, one per relation of the section 4.A table. -/

/-- Association-list put: replaces any existing binding for the key. -/
def aput {K V : Type} [BEq K] (m : List (K × V)) (k : K) (v : V) : List (K × V) :=
  (k, v) :: m.filter (fun p => !(p.1 == k))

/-- Propdef handle: name, owner, flags, UUID (embedded as Nat), definer. -/
structure PropDef where
  uuid : Nat
  definer : Objid
  name : String
  owner : Objid
  flags : PropFlags
deriving Repr

/-- The relational state a transaction reads and writes through the
DbTransaction trait, one field per relation used by the facade code. -/
structure TxState where
  objectFlags : List (Objid × ObjFlags)
  objectOwner : List (Objid × Objid)
  objectParent : List (Objid × Objid)
  objectChildren : List (Objid × List Objid)
  objectLocation : List (Objid × Objid)
  objectContents : List (Objid × List Objid)
  objectName : List (Objid × String)
  objectPropdefs : List (Objid × List PropDef)
  objectPropvalues : List ((Objid × Nat) × Var)
deriving Repr

namespace TxState

/-- Modelled from the spec: object validity is presence of the object record
(valid is a thin wrapper over the relation store). -/
def objectValid (st : TxState) (obj : Objid) : Bool :=
  (st.objectFlags.lookup obj).isSome

/-- Modelled from the spec: get_object_flags, erring with ObjectNotFound for an
absent record. -/
def getObjectFlags (st : TxState) (obj : Objid) : Except WorldStateError ObjFlags :=
  match st.objectFlags.lookup obj with
  | some f => .ok f
  | none => .error (.ObjectNotFound obj)

/-- Modelled from the spec: get_object_owner, erring with ObjectNotFound for an
absent record. -/
def getObjectOwner (st : TxState) (obj : Objid) : Except WorldStateError Objid :=
  match st.objectOwner.lookup obj with
  | some o => .ok o
  | none => .error (.ObjectNotFound obj)

/-- Modelled from the spec: get_object_name, erring with ObjectNotFound for an
absent record. -/
def getObjectName (st : TxState) (obj : Objid) : Except WorldStateError String :=
  match st.objectName.lookup obj with
  | some n => .ok n
  | none => .error (.ObjectNotFound obj)

/-- Modelled from the spec: get_object_parent; the parent may be NOTHING and an
absent edge reads as NOTHING. -/
def getObjectParent (st : TxState) (obj : Objid) : Except WorldStateError Objid :=
  .ok ((st.objectParent.lookup obj).getD NOTHING)

/-- Modelled from the spec: get_object_location; an absent edge reads as
NOTHING. -/
def getObjectLocation (st : TxState) (obj : Objid) : Except WorldStateError Objid :=
  .ok ((st.objectLocation.lookup obj).getD NOTHING)

/-- Modelled from the spec: get_object_children; the denormalized inverse
defaults to the empty set. -/
def getObjectChildren (st : TxState) (obj : Objid) : Except WorldStateError (List Objid) :=
  .ok ((st.objectChildren.lookup obj).getD [])

/-- Modelled from the spec: get_object_contents; the denormalized inverse
defaults to the empty set. -/
def getObjectContents (st : TxState) (obj : Objid) : Except WorldStateError (List Objid) :=
  .ok ((st.objectContents.lookup obj).getD [])

/-- Modelled from the spec: get_properties (the propdef list of the object
itself; absent record reads as the empty list). -/
def getProperties (st : TxState) (obj : Objid) : List PropDef :=
  (st.objectPropdefs.lookup obj).getD []

/-- Modelled from the spec: set_object_name stages the new name. -/
def setObjectName (st : TxState) (obj : Objid) (n : String) : TxState :=
  { st with objectName := aput st.objectName obj n }

/-- Modelled from the spec: set_object_owner stages the new owner. -/
def setObjectOwner (st : TxState) (obj : Objid) (o : Objid) : TxState :=
  { st with objectOwner := aput st.objectOwner obj o }

/-- Modelled from the spec: set_object_flags stages the new flag set. -/
def setObjectFlags (st : TxState) (obj : Objid) (f : ObjFlags) : TxState :=
  { st with objectFlags := aput st.objectFlags obj f }

/-- Modelled from the spec: set_property writes a local value entry, no
inheritance traversal. -/
def setProperty (st : TxState) (obj : Objid) (uuid : Nat) (v : Var) : TxState :=
  { st with objectPropvalues := aput st.objectPropvalues (obj, uuid) v }

end TxState

/-! ## Permissions

The Perms helper (moor_values::model::permissions) is not in the repository
snapshot; it is modelled from the spec's permission algebra in section 4.D. -/

/-- The perms triple carrier: caller identity and caller flags. -/
structure Perms where
  who : Objid
  flags : ObjFlags
deriving Repr

namespace Perms

/-- Modelled from the spec: check_object_allows permits iff the caller is
Wizard, or the caller is the owner, or the flag set carries the required bit;
violation yields ObjectPermissionDenied. -/
def check_object_allows (p : Perms) (owner : Objid) (flags : ObjFlags)
    (required : ObjFlag) : Except WorldStateError Unit :=
  if p.flags.wizard || p.who == owner || flags.contains required then .ok ()
  else .error .ObjectPermissionDenied

/-- Modelled from the spec: check_wizard permits iff the caller carries the
Wizard flag. -/
def check_wizard (p : Perms) : Except WorldStateError Unit :=
  if p.flags.wizard then .ok () else .error .ObjectPermissionDenied

/-- Property flag selector for check_property_allows. -/
inductive PropFlagSel where
  | read
  | write
  | chown
deriving DecidableEq, Repr

/-- PropFlags membership test. -/
def propContains (f : PropFlags) : PropFlagSel → Bool
  | .read => f.read
  | .write => f.write
  | .chown => f.chown

/-- Modelled from the spec: check_property_allows is the analogue of
check_object_allows against the propdef's own owner and flags; violation
yields PropertyPermissionDenied. -/
def check_property_allows (p : Perms) (owner : Objid) (flags : PropFlags)
    (required : PropFlagSel) : Except WorldStateError Unit :=
  if p.flags.wizard || p.who == owner || propContains flags required then .ok ()
  else .error .PropertyPermissionDenied

end Perms

/-- The facade's perms helper (db_worldstate.rs): flags_of(who) wrapped into a
Perms value. -/
def permsOf (st : TxState) (who : Objid) : Except WorldStateError Perms := do
  let flags ← st.getObjectFlags who
  return { who := who, flags := flags }

/-! ## Parent-chain helpers and set_object_parent -/

/-- Fuelled transitive-child test over the object_children relation: does
target appear among root's children, grandchildren, and so on. -/
def isDescendantFuel (st : TxState) : Nat → Objid → Objid → Bool
  | 0, _, _ => false
  | fuel + 1, root, target =>
    let kids := (st.objectChildren.lookup root).getD []
    kids.contains target || kids.any (fun k => isDescendantFuel st fuel k target)

/-- Transitive-child test with fuel bounded by the size of the children
relation (enough for any acyclic hierarchy stored in it). -/
def isDescendant (st : TxState) (root target : Objid) : Bool :=
  isDescendantFuel st (st.objectChildren.length + 1) root target

/-- Modelled from the spec: DbTransaction::set_object_parent (implementation
absent from the snapshot). Fails with RecursiveMove if the new parent is the
object itself or any transitive child; otherwise updates both sides of the
parent edge. Property re-inheritance on reparenting mutates only the
propdef/propvalue relations and is elided here: no settled claim observes the
success-path property state. -/
def setObjectParent (st : TxState) (obj newParent : Objid) :
    Except WorldStateError TxState :=
  if newParent == obj || isDescendant st obj newParent then
    .error (.RecursiveMove obj newParent)
  else
    let oldParent := (st.objectParent.lookup obj).getD NOTHING
    let st1 :=
      if oldParent == NOTHING then st
      else
        let sibs := ((st.objectChildren.lookup oldParent).getD []).filter (fun c => !(c == obj))
        { st with objectChildren := aput st.objectChildren oldParent sibs }
    let st2 := { st1 with objectParent := aput st1.objectParent obj newParent }
    let st3 :=
      if newParent == NOTHING then st2
      else
        let kids := (st2.objectChildren.lookup newParent).getD []
        { st2 with objectChildren := aput st2.objectChildren newParent (obj :: kids) }
    .ok st3

/-- The attribute reads and permission checks change_parent performs before
calling set_object_parent (db_worldstate.rs lines 733-753): read flags and
owner of the object, then (unless the new parent is NOTHING) check Write and
Fertile on the new parent, then check Write on the object. -/
def changeParentPrechecks (st : TxState) (perms obj newParent : Objid) :
    Except WorldStateError Unit := do
  let objflags ← st.getObjectFlags obj
  let owner ← st.getObjectOwner obj
  if !(newParent == NOTHING) then
    let parentflags ← st.getObjectFlags newParent
    let parentowner ← st.getObjectOwner newParent
    let p1 ← permsOf st perms
    p1.check_object_allows parentowner parentflags .write
    let p2 ← permsOf st perms
    p2.check_object_allows parentowner parentflags .fertile
  let p3 ← permsOf st perms
  p3.check_object_allows owner objflags .write

/-- change_parent from db_worldstate.rs: the self-check, then the attribute
reads and permission checks, then set_object_parent. -/
def changeParentE (st : TxState) (perms obj newParent : Objid) :
    Except WorldStateError TxState := do
  if obj == newParent then
    throw (.RecursiveMove obj newParent)
  changeParentPrechecks st perms obj newParent
  setObjectParent st obj newParent

/-- change_parent as an operation on the transaction state: an error leaves the
staged state untouched. -/
def changeParent (st : TxState) (perms obj newParent : Objid) :
    Except WorldStateError Unit × TxState :=
  match changeParentE st perms obj newParent with
  | .ok st2 => (.ok (), st2)
  | .error e => (.error e, st)

/-! ## Property resolution and the retrieve_property facade -/

/-- Fuelled ancestor chain (self first), following the object_parent relation
until NOTHING. -/
def ancestorChain (st : TxState) : Nat → Objid → List Objid
  | 0, _ => []
  | fuel + 1, o =>
    let p := (st.objectParent.lookup o).getD NOTHING
    if p == NOTHING then [o] else o :: ancestorChain st fuel p

/-- Ancestor chain with fuel bounded by the parent relation's size. -/
def ancestors (st : TxState) (obj : Objid) : List Objid :=
  ancestorChain st (st.objectParent.length + 1) obj

/-- Modelled from the spec: resolve_property walks the parent chain for a
propdef with the matching name, then walks the chain again from the object
upward for the first present value entry; if none is present the definer's
entry is consulted; a fully clear chain and a missing propdef both surface as
PropertyNotFound. -/
def resolveProperty (st : TxState) (obj : Objid) (name : String) :
    Except WorldStateError (PropDef × Var) :=
  let chain := ancestors st obj
  match chain.findSome? (fun o => (st.getProperties o).find? (fun pd => pd.name == name)) with
  | none => .error (.PropertyNotFound obj name)
  | some pd =>
    match chain.findSome? (fun o => st.objectPropvalues.lookup (o, pd.uuid)) with
    | some v => .ok (pd, v)
    | none =>
      match st.objectPropvalues.lookup (pd.definer, pd.uuid) with
      | some v => .ok (pd, v)
      | none => .error (.PropertyNotFound obj name)

/-- The stored-property branch of retrieve_property: resolve along the chain,
then check Read permission against the resolved propdef. -/
def retrieveStored (st : TxState) (perms obj : Objid) (pname : String) :
    Except WorldStateError Var := do
  let (ph, value) ← resolveProperty st obj pname
  let pp ← permsOf st perms
  pp.check_property_allows ph.owner ph.flags .read
  return value

/-- String rendering of a Var, used only for the aliases list in names_of; the
exact rendering is not observed by any settled claim. -/
def varToString : Var → String
  | .VStr s => s
  | .VInt i => toString i
  | .VObj o => "#" ++ toString o
  | _ => ""

/-- names_of from db_worldstate.rs: the object's name plus its "aliases"
property; any error or non-list value yields an empty alias list. The inner
read is a retrieve_property call with pname = "aliases", which is none of the
special names, so it reduces to the validity check plus the stored-property
branch. -/
def namesOf (st : TxState) (perms obj : Objid) :
    Except WorldStateError (String × List String) := do
  let name ← st.getObjectName obj
  let aliasesRead :=
    if obj == NOTHING || !(st.objectValid obj) then
      Except.error (WorldStateError.ObjectNotFound obj)
    else retrieveStored st perms obj "aliases"
  let aliases :=
    match aliasesRead with
    | .ok v =>
      match v with
      | .VList a => a.map varToString
      | _ => []
    | .error _ => []
  return (name, aliases)

/-- retrieve_property from db_worldstate.rs: validity check, then the
pseudo-property adapters for name, location, contents, owner, programmer,
wizard, r, w, f (in source order), and otherwise the stored-property branch. -/
def retrieveProperty (st : TxState) (perms obj : Objid) (pname : String) :
    Except WorldStateError Var := do
  if obj == NOTHING || !(st.objectValid obj) then
    throw (.ObjectNotFound obj)
  if pname == "name" then
    let (name, _) ← namesOf st perms obj
    return .VStr name
  else if pname == "location" then
    let loc ← st.getObjectLocation obj
    return .VObj loc
  else if pname == "contents" then
    let contents ← st.getObjectContents obj
    return .VList (contents.map .VObj)
  else if pname == "owner" then
    let o ← st.getObjectOwner obj
    return .VObj o
  else if pname == "programmer" then
    let flags ← st.getObjectFlags obj
    return .VInt (if flags.contains .programmer then 1 else 0)
  else if pname == "wizard" then
    let flags ← st.getObjectFlags obj
    return .VInt (if flags.contains .wizard then 1 else 0)
  else if pname == "r" then
    let flags ← st.getObjectFlags obj
    return .VInt (if flags.contains .read then 1 else 0)
  else if pname == "w" then
    let flags ← st.getObjectFlags obj
    return .VInt (if flags.contains .write then 1 else 0)
  else if pname == "f" then
    let flags ← st.getObjectFlags obj
    return .VInt (if flags.contains .fertile then 1 else 0)
  else
    retrieveStored st perms obj pname

/-- update_property from db_worldstate.rs: location/contents/parent/children
are rejected; name/owner/r/w/f require Write on the object record and adapt it
(r/w/f set the flag when the assigned integer is 1 and clear it otherwise, any
non-integer is a PropertyTypeMismatch); programmer/wizard require a wizard
caller and set the flag unconditionally, never reading the assigned value;
everything else goes to the stored propdef with a Write permission check. -/
def updateProperty (st : TxState) (perms obj : Objid) (pname : String) (value : Var) :
    Except WorldStateError TxState := do
  if pname == "location" || pname == "contents" || pname == "parent" || pname == "children" then
    throw .PropertyPermissionDenied
  else if pname == "name" || pname == "owner" || pname == "r" || pname == "w" || pname == "f" then
    let flags ← st.getObjectFlags obj
    let objowner ← st.getObjectOwner obj
    let pp ← permsOf st perms
    pp.check_object_allows objowner flags .write
    if pname == "name" then
      match value with
      | .VStr name => return st.setObjectName obj name
      | _ => throw .PropertyTypeMismatch
    else if pname == "owner" then
      match value with
      | .VObj owner => return st.setObjectOwner obj owner
      | _ => throw .PropertyTypeMismatch
    else if pname == "r" then
      match value with
      | .VInt v =>
        return st.setObjectFlags obj (if v == 1 then flags.set .read else flags.clear .read)
      | _ => throw .PropertyTypeMismatch
    else if pname == "w" then
      match value with
      | .VInt v =>
        return st.setObjectFlags obj (if v == 1 then flags.set .write else flags.clear .write)
      | _ => throw .PropertyTypeMismatch
    else
      match value with
      | .VInt v =>
        return st.setObjectFlags obj (if v == 1 then flags.set .fertile else flags.clear .fertile)
      | _ => throw .PropertyTypeMismatch
  else if pname == "programmer" || pname == "wizard" then
    let pp ← permsOf st perms
    pp.check_wizard
    let flags ← st.getObjectFlags obj
    let flags2 :=
      if pname == "programmer" then flags.set .programmer
      else if pname == "wizard" then flags.set .wizard
      else flags
    return st.setObjectFlags obj flags2
  else
    let properties := st.getProperties obj
    match properties.find? (fun pd => pd.name == pname) with
    | none => throw (.PropertyNotFound obj pname)
    | some ph => do
      let pp ← permsOf st perms
      pp.check_property_allows ph.owner ph.flags .write
      return st.setProperty obj ph.uuid value

/-- location_of from db_worldstate.rs: no permission check at all (the perms
argument is unused). -/
def locationOf (st : TxState) (_perms obj : Objid) : Except WorldStateError Objid :=
  st.getObjectLocation obj

/-- contents_of from db_worldstate.rs: no permission check at all (the perms
argument is unused). -/
def contentsOf (st : TxState) (_perms obj : Objid) : Except WorldStateError (List Objid) :=
  st.getObjectContents obj

/-- children_of from db_worldstate.rs: checks Read on the object before
answering. -/
def childrenOf (st : TxState) (perms obj : Objid) : Except WorldStateError (List Objid) := do
  let objflags ← st.getObjectFlags obj
  let owner ← st.getObjectOwner obj
  let pp ← permsOf st perms
  pp.check_object_allows owner objflags .read
  st.getObjectChildren obj

/-! ## The commit pipeline (worldstate_db.rs, start_processing_thread)

The pipeline logic is generic over each relation's key and value types; keys
and values are abstracted as Nat here. The GlobalCache check/apply primitives
are not part of the snapshot and are modelled from spec section 4.B. -/

/-- The result code of a commit, from crates/values/src/model/mod.rs. -/
inductive CommitResult where
  | Success
  | ConflictRetry
deriving DecidableEq, Repr

/-- The twelve relations whose global caches the pipeline touches. -/
inductive Rel where
  | oflags
  | oparent
  | ochildren
  | oowner
  | olocation
  | ocontents
  | oname
  | overbdefs
  | overbs
  | opropdefs
  | opropvalues
  | opropflags
deriving DecidableEq, Repr

/-- Per-transaction, per-relation working set: observed reads (key and version
at snapshot, negative reads included), staged writes, staged deletes. -/
structure WorkingSet where
  reads : List (Nat × Nat)
  writes : List (Nat × Nat)
  deletes : List Nat
deriving DecidableEq, Repr

/-- A global-cache entry: the key's version and its value (none = tombstone). -/
structure CacheEntry where
  ver : Nat
  val : Option Nat
deriving DecidableEq, Repr

abbrev Cache := List (Nat × CacheEntry)

/-- Modelled from the spec: a key absent from the cache is populated from disk
with version 0, so its current version reads as 0. -/
def currentVersion (c : Cache) (k : Nat) : Nat :=
  ((c.lookup k).map (fun e => e.ver)).getD 0

/-- Modelled from the spec: GlobalCache::check verifies, for every entry the
transaction read, that the cache's current version equals the version recorded
at snapshot. -/
def checkWS (c : Cache) (w : WorkingSet) : Bool :=
  w.reads.all (fun kv => currentVersion c kv.1 == kv.2)

/-- Install a write into the cache with a bumped version. -/
def cachePut (c : Cache) (k v : Nat) : Cache :=
  aput c k { ver := currentVersion c k + 1, val := some v }

/-- Install a tombstone into the cache with a bumped version. -/
def cacheDel (c : Cache) (k : Nat) : Cache :=
  aput c k { ver := currentVersion c k + 1, val := none }

/-- Modelled from the spec: GlobalCache::apply folds every staged write and
delete into the cache, bumping each mutated key's version. -/
def applyWS (c : Cache) (w : WorkingSet) : Cache :=
  let c1 := w.writes.foldl (fun acc kv => cachePut acc kv.1 kv.2) c
  w.deletes.foldl (fun acc k => cacheDel acc k) c1

/-- The backing store image of one relation (none = deleted key). -/
abbrev DiskMap := List (Nat × Option Nat)

/-- Modelled from the spec: apply flushes each staged mutation to the backing
store. -/
def flushWS (d : DiskMap) (w : WorkingSet) : DiskMap :=
  let d1 := w.writes.foldl (fun acc kv => aput acc kv.1 (some kv.2)) d
  w.deletes.foldl (fun acc k => aput acc k none) d1

/-- One relation's global cache and its backing-store partition. -/
structure RelationCache where
  cache : Cache
  disk : DiskMap
deriving DecidableEq, Repr

/-- Apply a working set to one relation: cache and backing store. -/
def applyRel (rc : RelationCache) (w : WorkingSet) : RelationCache :=
  { cache := applyWS rc.cache w, disk := flushWS rc.disk w }

/-- The working sets of one commit tuple, one field per relation, mirroring
struct WorkingSets of worldstate_db.rs. -/
structure WorkingSets where
  object_location : WorkingSet
  object_contents : WorkingSet
  object_flags : WorkingSet
  object_parent : WorkingSet
  object_children : WorkingSet
  object_owner : WorkingSet
  object_name : WorkingSet
  object_verbdefs : WorkingSet
  object_verbs : WorkingSet
  object_propdefs : WorkingSet
  object_propvalues : WorkingSet
  object_propflags : WorkingSet
deriving DecidableEq, Repr

/-- The global state the processing thread owns: the twelve relation caches
(fields mirror struct WorldStateDB), the sequences atomics, the sequences
partition, and the monotonic transaction counter. -/
structure GlobalState where
  object_location : RelationCache
  object_contents : RelationCache
  object_flags : RelationCache
  object_parent : RelationCache
  object_children : RelationCache
  object_owner : RelationCache
  object_name : RelationCache
  object_verbdefs : RelationCache
  object_verbs : RelationCache
  object_propdefs : RelationCache
  object_propvalues : RelationCache
  object_propflags : RelationCache
  sequences : Nat → Int
  seqPartition : List (Nat × Int)
  monotonic : Nat

/-- Relation selector on the global state. -/
def GlobalState.rel (gs : GlobalState) : Rel → RelationCache
  | .oflags => gs.object_flags
  | .oparent => gs.object_parent
  | .ochildren => gs.object_children
  | .oowner => gs.object_owner
  | .olocation => gs.object_location
  | .ocontents => gs.object_contents
  | .oname => gs.object_name
  | .overbdefs => gs.object_verbdefs
  | .overbs => gs.object_verbs
  | .opropdefs => gs.object_propdefs
  | .opropvalues => gs.object_propvalues
  | .opropflags => gs.object_propflags

/-- Relation selector on a commit tuple's working sets. -/
def WorkingSets.rel (ws : WorkingSets) : Rel → WorkingSet
  | .oflags => ws.object_flags
  | .oparent => ws.object_parent
  | .ochildren => ws.object_children
  | .oowner => ws.object_owner
  | .olocation => ws.object_location
  | .ocontents => ws.object_contents
  | .oname => ws.object_name
  | .overbdefs => ws.object_verbdefs
  | .overbs => ws.object_verbs
  | .opropdefs => ws.object_propdefs
  | .opropvalues => ws.object_propvalues
  | .opropflags => ws.object_propflags

/-- The order in which start_processing_thread acquires the relation mutexes
(worldstate_db.rs lines 267-278): flags, parent, children, owner, location,
contents, name, verbdefs, verbs, propdefs, propvalues, propflags. The check
calls (lines 280-361) and the apply calls (lines 363-422) follow the same
order. -/
def lockOrder : List Rel :=
  [.oflags, .oparent, .ochildren, .oowner, .olocation, .ocontents,
   .oname, .overbdefs, .overbs, .opropdefs, .opropvalues, .opropflags]

/-- Observable events of one trip through the pipeline loop body. -/
inductive Event where
  | lockEv (r : Rel)
  | checkEv (r : Rel) (ok : Bool)
  | applyEv (r : Rel)
  | seqWriteEv (i : Nat)
  | persistEv
  | replyEv (res : CommitResult)
deriving DecidableEq, Repr

/-- The per-relation check results in the code's order. -/
def checkResults (gs : GlobalState) (ws : WorkingSets) : List (Rel × Bool) :=
  lockOrder.map (fun r => (r, checkWS (gs.rel r).cache (ws.rel r)))

/-- Check events as emitted by the short-circuiting check sequence: one event
per passed check, ending at the first failure. -/
def checkEvs : List (Rel × Bool) → List Event
  | [] => []
  | (r, true) :: rest => .checkEv r true :: checkEvs rest
  | (r, false) :: _ => [.checkEv r false]

/-- Apply every relation's working set (the relation locks are all held). -/
def applyAll (gs : GlobalState) (ws : WorkingSets) : GlobalState :=
  { gs with
    object_flags := applyRel gs.object_flags ws.object_flags
    object_parent := applyRel gs.object_parent ws.object_parent
    object_children := applyRel gs.object_children ws.object_children
    object_owner := applyRel gs.object_owner ws.object_owner
    object_location := applyRel gs.object_location ws.object_location
    object_contents := applyRel gs.object_contents ws.object_contents
    object_name := applyRel gs.object_name ws.object_name
    object_verbdefs := applyRel gs.object_verbdefs ws.object_verbdefs
    object_verbs := applyRel gs.object_verbs ws.object_verbs
    object_propdefs := applyRel gs.object_propdefs ws.object_propdefs
    object_propvalues := applyRel gs.object_propvalues ws.object_propvalues
    object_propflags := applyRel gs.object_propflags ws.object_propflags }

/-- Store the monotonic counter into sequence slot 15, then write all sixteen
sequence values (slots 0 through 15) to the sequences partition
(worldstate_db.rs lines 424-437). -/
def writeSeqs (gs : GlobalState) : GlobalState :=
  let seqs : Nat → Int :=
    fun i => if i = 15 then (gs.monotonic : Int) else gs.sequences i
  let sp := (List.range 16).foldl (fun acc i => aput acc i (seqs i)) gs.seqPartition
  { gs with sequences := seqs, seqPartition := sp }

/-- One trip through the pipeline loop body for one commit tuple: acquire all
locks in the fixed order, run the checks in order replying ConflictRetry at the
first failure, otherwise apply every relation, write the sequences, persist
(fsync), and reply Success. -/
def processCommit (gs : GlobalState) (ws : WorkingSets) :
    CommitResult × GlobalState × List Event :=
  let crs := checkResults gs ws
  let lockEvsList := lockOrder.map Event.lockEv
  if crs.all (fun p => p.2) then
    let gs1 := applyAll gs ws
    let gs2 := writeSeqs gs1
    (.Success, gs2,
      lockEvsList ++ checkEvs crs ++ lockOrder.map Event.applyEv ++
        (List.range 16).map Event.seqWriteEv ++ [.persistEv, .replyEv .Success])
  else
    (.ConflictRetry, gs, lockEvsList ++ checkEvs crs ++ [.replyEv .ConflictRetry])

/-! ## WorldStateDB::open (worldstate_db.rs lines 78-198) -/

/-- The on-disk keyspace as seen at startup: the set of existing partitions and
the contents of the sequences partition (slot index to stored u64). -/
structure Keyspace where
  partitions : List String
  seqContents : List (Nat × Nat)
deriving DecidableEq, Repr

/-- Keyspace::partition_exists. -/
def partitionExists (ks : Keyspace) (name : String) : Bool :=
  ks.partitions.contains name

/-- Keyspace::open_partition: creates the partition when absent. -/
def openPartition (ks : Keyspace) (name : String) : Keyspace :=
  if partitionExists ks name then ks
  else { ks with partitions := name :: ks.partitions }

/-- The thirteen object partitions opened by WorldStateDB::open after the
freshness check, in source order minus the sequences partition opened first. -/
def objectPartitionNames : List String :=
  ["object_location", "object_contents", "object_flags", "object_parent",
   "object_children", "object_owner", "object_name", "object_verbdefs",
   "object_verbs", "object_propdefs", "object_propvalues", "object_propflags"]

/-- WorldStateDB::open, the keyspace-visible part: open the sequences
partition, test object_location existence to derive the fresh flag, read
sequence slot 15 (defaulting to 1) to seed the monotonic counter, then open
the twelve object partitions. Returns (final keyspace, fresh, seed). -/
def openDB (ks0 : Keyspace) : Keyspace × Bool × Nat :=
  let ks1 := openPartition ks0 "sequences"
  let fresh := !(partitionExists ks1 "object_location")
  let startTxNum := (ks1.seqContents.lookup 15).getD 1
  let ks2 := objectPartitionNames.foldl openPartition ks1
  (ks2, fresh, startTxNum)

/-! ## The per-transaction message server (moor-lib rocksdb tx_server.rs) -/

/-- Messages a transaction handle sends its server: any data operation
(abstracted; each stages one mutation in the optimistic transaction), commit,
or rollback. Dropping the handle disconnects the channel, which is the end of
the message stream. -/
inductive TxMessage where
  | op (m : Nat)
  | commit
  | rollback
deriving DecidableEq, Repr

/-- Terminal fate of a transaction served by run_tx_server. -/
inductive TxOutcome where
  | committed
  | rolledBack
deriving DecidableEq, Repr

/-- run_tx_server from tx_server.rs, with the RocksDB optimistic transaction
modelled from the spec: data operations stage mutations privately, commit
publishes the staged mutations to the shared store, rollback discards them
leaving the store untouched. The empty-stream case is the disconnected
mailbox branch of the source: the handle was dropped, so the server calls
tx.rollback() and returns. -/
def runTxServer (db : List Nat) (staged : List Nat) :
    List TxMessage → TxOutcome × List Nat
  | [] => (.rolledBack, db)
  | .op m :: rest => runTxServer db (m :: staged) rest
  | .commit :: _ => (.committed, staged.reverse ++ db)
  | .rollback :: _ => (.rolledBack, db)

/-! # Theorems -/

/-- C9: WorldStateError::to_error_code is partial: it panics (embedded as none)
exactly on ObjectAlreadyExists, ObjectAttributeError, VerbDecodeError,
FailedMatch, AmbiguousMatch, DatabaseError, and maps every other variant to the
stated MOO error code: ObjectNotFound to E_INVIND, RecursiveMove to E_RECMOVE,
the three PermissionDenied variants to E_PERM, PropertyNotFound and
PropertyDefinitionNotFound to E_PROPNF, VerbNotFound and InvalidVerb to
E_VERBNF, DuplicateVerb and DuplicatePropertyDefinition to E_INVARG, and
PropertyTypeMismatch to E_TYPE. -/
theorem to_error_code_partial :
    (∀ o, (WorldStateError.ObjectNotFound o).to_error_code = some .E_INVIND) ∧
    (∀ a b, (WorldStateError.RecursiveMove a b).to_error_code = some .E_RECMOVE) ∧
    (WorldStateError.ObjectPermissionDenied.to_error_code = some .E_PERM) ∧
    (WorldStateError.VerbPermissionDenied.to_error_code = some .E_PERM) ∧
    (WorldStateError.PropertyPermissionDenied.to_error_code = some .E_PERM) ∧
    (∀ o n, (WorldStateError.PropertyNotFound o n).to_error_code = some .E_PROPNF) ∧
    (∀ o n, (WorldStateError.PropertyDefinitionNotFound o n).to_error_code = some .E_PROPNF) ∧
    (∀ o n, (WorldStateError.VerbNotFound o n).to_error_code = some .E_VERBNF) ∧
    (∀ v, (WorldStateError.InvalidVerb v).to_error_code = some .E_VERBNF) ∧
    (∀ o n, (WorldStateError.DuplicateVerb o n).to_error_code = some .E_INVARG) ∧
    (∀ o n, (WorldStateError.DuplicatePropertyDefinition o n).to_error_code = some .E_INVARG) ∧
    (WorldStateError.PropertyTypeMismatch.to_error_code = some .E_TYPE) ∧
    (∀ o, (WorldStateError.ObjectAlreadyExists o).to_error_code = none) ∧
    (∀ a o, (WorldStateError.ObjectAttributeError a o).to_error_code = none) ∧
    (∀ o n, (WorldStateError.VerbDecodeError o n).to_error_code = none) ∧
    (∀ s, (WorldStateError.FailedMatch s).to_error_code = none) ∧
    (∀ s, (WorldStateError.AmbiguousMatch s).to_error_code = none) ∧
    (∀ s, (WorldStateError.DatabaseError s).to_error_code = none) := by
  repeat' apply And.intro
  all_goals intros
  all_goals rfl

/-- Opening an existing partition leaves the keyspace unchanged; opening a new
one prepends only its own name. -/
theorem partitionExists_openPartition (ks : Keyspace) (opened name : String) :
    partitionExists (openPartition ks opened) name =
      ((name == opened) || partitionExists ks name) := by
  by_cases ho : opened ∈ ks.partitions <;> by_cases hn : name = opened <;>
    simp [partitionExists, openPartition, ho, hn]

/-- A partition stays present through any further open_partition calls. -/
theorem partitionExists_foldl_open (names : List String) (ks : Keyspace)
    (name : String) (h : partitionExists ks name = true) :
    partitionExists (names.foldl openPartition ks) name = true := by
  induction names generalizing ks with
  | nil => exact h
  | cons n rest ih =>
    apply ih
    rw [partitionExists_openPartition, h, Bool.or_true]

/-- C6: WorldStateDB::open reports the database fresh exactly when the
object_location partition is absent from the keyspace at startup (even though
open itself creates that partition before returning), and seeds the in-memory
monotonic counter from sequences slot 15, defaulting to 1 when the slot is
absent. -/
theorem openDB_fresh_iff_no_object_location (ks : Keyspace) :
    (openDB ks).2.1 = !(partitionExists ks "object_location") ∧
    (openDB ks).2.2 = ((ks.seqContents.lookup 15).getD 1) ∧
    partitionExists (openDB ks).1 "object_location" = true := by
  have hseq : (openPartition ks "sequences").seqContents = ks.seqContents := by
    unfold openPartition
    split <;> rfl
  have hbeq : (("object_location" : String) == "sequences") = false := by decide
  refine ⟨?_, ?_, ?_⟩
  · simp only [openDB]
    rw [partitionExists_openPartition, hbeq, Bool.false_or]
  · simp only [openDB, hseq]
  · simp only [openDB]
    rw [show objectPartitionNames = "object_location" :: objectPartitionNames.tail from rfl,
      List.foldl_cons]
    apply partitionExists_foldl_open
    rw [partitionExists_openPartition]
    simp

/-- C7: a transaction whose handle is dropped without an explicit commit or
rollback (the message stream ends with neither) is rolled back by the server:
no staged mutation reaches the shared store. -/
theorem runTxServer_drop_rolls_back (db staged : List Nat) (msgs : List TxMessage)
    (h : ∀ m ∈ msgs, m ≠ TxMessage.commit ∧ m ≠ TxMessage.rollback) :
    runTxServer db staged msgs = (.rolledBack, db) := by
  induction msgs generalizing staged with
  | nil => rfl
  | cons m rest ih =>
    match m with
    | .op k =>
      show runTxServer db (k :: staged) rest = _
      exact ih _ (fun x hx => h x (List.mem_cons_of_mem _ hx))
    | .commit => exact absurd rfl (h .commit (List.mem_cons_self _ _)).1
    | .rollback => exact absurd rfl (h .rollback (List.mem_cons_self _ _)).2

/-- Witness for C7: a server fed one data operation and then disconnected
rolls back and leaves the store untouched. -/
theorem runTxServer_drop_rolls_back_witness :
    runTxServer [1, 2] [] [.op 7] = (.rolledBack, [1, 2]) :=
  runTxServer_drop_rolls_back [1, 2] [] [.op 7] (by decide)

/-- C10: location_of and contents_of ignore the perms argument entirely, so
their answers agree for any two callers; children_of, by contrast, checks Read
on the object and denies a caller who is not a wizard and not the owner when
the Read flag is clear. -/
theorem location_contents_no_perm_check (st : TxState) (obj p : Objid)
    (fl : ObjFlags) (ow : Objid) (pp : Perms)
    (hf : st.getObjectFlags obj = .ok fl) (ho : st.getObjectOwner obj = .ok ow)
    (hp : permsOf st p = .ok pp) (hwiz : pp.flags.wizard = false)
    (hown : (pp.who == ow) = false) (hread : fl.read = false) :
    (∀ q1 q2 : Objid, locationOf st q1 obj = locationOf st q2 obj) ∧
    (∀ q1 q2 : Objid, contentsOf st q1 obj = contentsOf st q2 obj) ∧
    childrenOf st p obj = .error .ObjectPermissionDenied := by
  refine ⟨fun _ _ => rfl, fun _ _ => rfl, ?_⟩
  have hown2 : pp.who ≠ ow := by simpa using hown
  simp [childrenOf, hf, ho, hp, Perms.check_object_allows, hwiz, hown2,
    ObjFlags.contains, hread, Bind.bind, Except.bind]

/-- Concrete state for the C10 witness: object 1 with Read clear, owned by 10,
and a non-wizard caller 20. -/
def c10st : TxState :=
  { objectFlags := [(1, ObjFlags.empty), (20, ObjFlags.empty)]
    objectOwner := [(1, 10), (20, 20)]
    objectParent := []
    objectChildren := [(1, [2])]
    objectLocation := [(1, 3)]
    objectContents := [(1, [4])]
    objectName := []
    objectPropdefs := []
    objectPropvalues := [] }

/-- Witness for C10 at a concrete state: caller 20 is denied the children of
object 1 while location and contents queries ignore the caller. -/
theorem location_contents_no_perm_check_witness :
    locationOf c10st 20 1 = locationOf c10st 99 1 ∧
    contentsOf c10st 20 1 = contentsOf c10st 99 1 ∧
    childrenOf c10st 20 1 = .error .ObjectPermissionDenied := by
  have h := location_contents_no_perm_check c10st 1 20 ObjFlags.empty 10
    { who := 20, flags := ObjFlags.empty }
    (by rfl) (by rfl) (by rfl) (by rfl) (by rfl) (by rfl)
  exact ⟨h.1 20 99, h.2.1 20 99, h.2.2⟩

/-- C4 (amended): change_parent fails with RecursiveMove and leaves the
relational state untouched when the new parent is the object itself
(unconditionally, the self-check precedes everything), or when the new parent
is a transitive child and the attribute reads and permission checks that
precede the reparent call all pass. -/
theorem change_parent_recursive_move (st : TxState) (p obj np : Objid)
    (h : obj = np ∨ (isDescendant st obj np = true ∧
      changeParentPrechecks st p obj np = .ok ())) :
    changeParent st p obj np = (.error (.RecursiveMove obj np), st) := by
  have hE : changeParentE st p obj np = .error (.RecursiveMove obj np) := by
    rcases h with h | ⟨hd, hpre⟩
    · simp [changeParentE, h, throw, throwThe, MonadExceptOf.throw, Bind.bind, Except.bind]
    · by_cases hbe : obj = np
      · simp [changeParentE, hbe, throw, throwThe, MonadExceptOf.throw, Bind.bind, Except.bind]
      · have hbeq : (obj == np) = false := by simpa using hbe
        have hnpo : (np == obj) = false := by simpa using (Ne.symm hbe)
        simp [changeParentE, hbeq, hpre, Bind.bind, Except.bind, pure, Except.pure,
          setObjectParent, hnpo, hd]
  simp [changeParent, hE]

/-- Object flags with Write and Fertile set. -/
def writeFertile : ObjFlags := { ObjFlags.empty with write := true, fertile := true }

/-- Concrete state for the C4 counterexample: object 2 is a child of object 1,
both owned by 10; caller 20 is neither wizard nor owner; caller 10 owns both. -/
def c4st : TxState :=
  { objectFlags := [(1, ObjFlags.empty), (2, writeFertile), (10, ObjFlags.empty),
      (20, ObjFlags.empty)]
    objectOwner := [(1, 10), (2, 10), (10, 10), (20, 20)]
    objectParent := [(2, 1)]
    objectChildren := [(1, [2])]
    objectLocation := []
    objectContents := []
    objectName := []
    objectPropdefs := []
    objectPropvalues := [] }

/-- Counterexample to C4 as stated: object 2 is a transitive child of object 1,
yet change_parent for the unprivileged caller 20 fails with
ObjectPermissionDenied, not RecursiveMove - the permission checks run before
the descendant check inside set_object_parent. -/
theorem change_parent_perm_denied_cex :
    isDescendant c4st 1 2 = true ∧
    changeParent c4st 20 1 2 = (.error .ObjectPermissionDenied, c4st) ∧
    WorldStateError.ObjectPermissionDenied ≠ WorldStateError.RecursiveMove 1 2 := by
  refine ⟨by decide, by rfl, by decide⟩

/-- Witness for the amended C4: the owner (caller 10) reparenting object 1
under its own child 2 passes every permission check and is then refused with
RecursiveMove, with the state unchanged. -/
theorem change_parent_recursive_move_witness :
    changeParent c4st 10 1 2 = (.error (.RecursiveMove 1 2), c4st) :=
  change_parent_recursive_move c4st 10 1 2 (Or.inr ⟨by decide, by rfl⟩)

/-- C5 (amended): for a valid object, retrieve_property answers the
pseudo-properties name, location, contents, owner, programmer, wizard, r, w, f
from the object record - the name string, the location Objid, the contents
list, the owner Objid, and 1 or 0 according to the Programmer, Wizard, Read,
Write, Fertile flag. The names parent and children are not special-cased by
retrieve_property and fall through to stored-property resolution. -/
theorem retrieve_property_pseudo (st : TxState) (p obj : Objid)
    (nm : String) (loc ow : Objid) (cs : List Objid) (fl : ObjFlags)
    (hno : (obj == NOTHING) = false) (hv : st.objectValid obj = true)
    (hn : st.getObjectName obj = .ok nm)
    (hl : st.getObjectLocation obj = .ok loc)
    (hc : st.getObjectContents obj = .ok cs)
    (ho : st.getObjectOwner obj = .ok ow)
    (hf : st.getObjectFlags obj = .ok fl) :
    retrieveProperty st p obj "name" = .ok (.VStr nm) ∧
    retrieveProperty st p obj "location" = .ok (.VObj loc) ∧
    retrieveProperty st p obj "contents" = .ok (.VList (cs.map Var.VObj)) ∧
    retrieveProperty st p obj "owner" = .ok (.VObj ow) ∧
    retrieveProperty st p obj "programmer" = .ok (.VInt (if fl.programmer then 1 else 0)) ∧
    retrieveProperty st p obj "wizard" = .ok (.VInt (if fl.wizard then 1 else 0)) ∧
    retrieveProperty st p obj "r" = .ok (.VInt (if fl.read then 1 else 0)) ∧
    retrieveProperty st p obj "w" = .ok (.VInt (if fl.write then 1 else 0)) ∧
    retrieveProperty st p obj "f" = .ok (.VInt (if fl.fertile then 1 else 0)) := by
  refine ⟨?_, ?_, ?_, ?_, ?_, ?_, ?_, ?_, ?_⟩ <;>
    simp [retrieveProperty, namesOf, hno, hv, hn, hl, hc, ho, hf,
      Bind.bind, Except.bind, pure, Except.pure, throw, throwThe,
      MonadExceptOf.throw, ObjFlags.contains]

/-- Concrete state for the C5 counterexample: object 1 is a valid child of the
valid object 5; no stored properties exist anywhere. -/
def c5st : TxState :=
  { objectFlags := [(1, ObjFlags.empty), (5, ObjFlags.empty)]
    objectOwner := [(1, 10), (5, 10)]
    objectParent := [(1, 5)]
    objectChildren := [(5, [1])]
    objectLocation := []
    objectContents := []
    objectName := [(1, "thing"), (5, "parentthing")]
    objectPropdefs := []
    objectPropvalues := [] }

/-- Counterexample to C5 as stated: retrieve_property does not answer "parent"
or "children" from the object record; both fall through to stored-property
resolution and fail with PropertyNotFound even though the record holds a
parent and a child. -/
theorem retrieve_property_parent_children_cex :
    retrieveProperty c5st 10 1 "parent" = .error (.PropertyNotFound 1 "parent") ∧
    c5st.getObjectParent 1 = .ok 5 ∧
    retrieveProperty c5st 10 5 "children" = .error (.PropertyNotFound 5 "children") ∧
    c5st.getObjectChildren 5 = .ok [1] := by
  exact ⟨rfl, rfl, rfl, rfl⟩

/-- Witness for the amended C5 at a concrete state. -/
theorem retrieve_property_pseudo_witness :
    retrieveProperty c5st 10 1 "name" = .ok (.VStr "thing") ∧
    retrieveProperty c5st 10 1 "owner" = .ok (.VObj 10) ∧
    retrieveProperty c5st 10 1 "wizard" = .ok (.VInt 0) := by
  have h := retrieve_property_pseudo c5st 10 1 "thing" NOTHING 10 [] ObjFlags.empty
    (by decide) (by rfl) (by rfl) (by rfl) (by rfl) (by rfl) (by rfl)
  exact ⟨h.1, h.2.2.2.1, h.2.2.2.2.2.1⟩

/-- C8: for a wizard caller, update_property on the pseudo-properties
programmer and wizard always sets the corresponding flag, whatever value is
assigned - integer 0 and non-integers included, with no PropertyTypeMismatch -
whereas r, w, f demand an integer (non-integers are PropertyTypeMismatch) and
set the flag exactly when that integer is 1, clearing it otherwise. -/
theorem update_property_programmer_wizard_always_set (st : TxState)
    (p obj : Objid) (pp : Perms) (fl : ObjFlags) (ow : Objid)
    (hp : permsOf st p = .ok pp) (hwiz : pp.flags.wizard = true)
    (hf : st.getObjectFlags obj = .ok fl) (ho : st.getObjectOwner obj = .ok ow) :
    (∀ v : Var, updateProperty st p obj "programmer" v =
       .ok (st.setObjectFlags obj (fl.set .programmer))) ∧
    (∀ v : Var, updateProperty st p obj "wizard" v =
       .ok (st.setObjectFlags obj (fl.set .wizard))) ∧
    ((fl.set .programmer).contains .programmer = true ∧
     (fl.set .wizard).contains .wizard = true) ∧
    (updateProperty st p obj "r" (.VInt 1) =
       .ok (st.setObjectFlags obj (fl.set .read))) ∧
    (∀ i : Int, (i == 1) = false → updateProperty st p obj "r" (.VInt i) =
       .ok (st.setObjectFlags obj (fl.clear .read))) ∧
    (∀ s, updateProperty st p obj "r" (.VStr s) = .error .PropertyTypeMismatch) ∧
    (updateProperty st p obj "w" (.VInt 1) =
       .ok (st.setObjectFlags obj (fl.set .write))) ∧
    (∀ i : Int, (i == 1) = false → updateProperty st p obj "w" (.VInt i) =
       .ok (st.setObjectFlags obj (fl.clear .write))) ∧
    (∀ s, updateProperty st p obj "w" (.VStr s) = .error .PropertyTypeMismatch) ∧
    (updateProperty st p obj "f" (.VInt 1) =
       .ok (st.setObjectFlags obj (fl.set .fertile))) ∧
    (∀ i : Int, (i == 1) = false → updateProperty st p obj "f" (.VInt i) =
       .ok (st.setObjectFlags obj (fl.clear .fertile))) ∧
    (∀ s, updateProperty st p obj "f" (.VStr s) = .error .PropertyTypeMismatch) := by
  refine ⟨?_, ?_, ⟨rfl, rfl⟩, ?_, ?_, ?_, ?_, ?_, ?_, ?_, ?_, ?_⟩ <;>
    first
      | (intro i hi
         simp [updateProperty, hp, hwiz, hf, ho, hi, Perms.check_wizard,
           Perms.check_object_allows, Bind.bind, Except.bind, pure, Except.pure,
           throw, throwThe, MonadExceptOf.throw])
      | (intro v
         simp [updateProperty, hp, hwiz, hf, ho, Perms.check_wizard,
           Perms.check_object_allows, Bind.bind, Except.bind, pure, Except.pure,
           throw, throwThe, MonadExceptOf.throw])
      | simp [updateProperty, hp, hwiz, hf, ho, Perms.check_wizard,
          Perms.check_object_allows, Bind.bind, Except.bind, pure, Except.pure,
          throw, throwThe, MonadExceptOf.throw]

/-- Concrete state for the C8 witness: caller 9 is a wizard, object 1 starts
with every flag clear. -/
def c8st : TxState :=
  { objectFlags := [(1, ObjFlags.empty), (9, ObjFlags.empty.set .wizard)]
    objectOwner := [(1, 10), (9, 9)]
    objectParent := []
    objectChildren := []
    objectLocation := []
    objectContents := []
    objectName := []
    objectPropdefs := []
    objectPropvalues := [] }

/-- Witness for C8: assigning 0 to .programmer still sets the Programmer flag,
assigning a string to .wizard still sets the Wizard flag, while .r with 0
clears Read and .r with a string is a type mismatch. -/
theorem update_property_programmer_wizard_always_set_witness :
    updateProperty c8st 9 1 "programmer" (.VInt 0) =
      .ok (c8st.setObjectFlags 1 (ObjFlags.empty.set .programmer)) ∧
    updateProperty c8st 9 1 "wizard" (.VStr "x") =
      .ok (c8st.setObjectFlags 1 (ObjFlags.empty.set .wizard)) ∧
    updateProperty c8st 9 1 "r" (.VInt 0) =
      .ok (c8st.setObjectFlags 1 (ObjFlags.empty.clear .read)) ∧
    updateProperty c8st 9 1 "r" (.VStr "x") = .error .PropertyTypeMismatch := by
  have h := update_property_programmer_wizard_always_set c8st 9 1
    { who := 9, flags := ObjFlags.empty.set .wizard } ObjFlags.empty 10
    (by rfl) (by rfl) (by rfl) (by rfl)
  exact ⟨h.1 (.VInt 0), h.2.1 (.VStr "x"), h.2.2.2.2.1 0 (by decide),
    h.2.2.2.2.2.1 "x"⟩

/-! ## Commit pipeline lemmas -/

/-- Every relation appears in the lock order. -/
theorem mem_lockOrder (r : Rel) : r ∈ lockOrder := by
  cases r <;> simp [lockOrder]

/-- A single failed read is a failed relation check. -/
theorem checkWS_false_iff (c : Cache) (w : WorkingSet) :
    checkWS c w = false ↔ ∃ kv ∈ w.reads, currentVersion c kv.1 ≠ kv.2 := by
  simp [checkWS]

/-- The conflict-check event stream contains only check events. -/
theorem checkEvs_only_checks (l : List (Rel × Bool)) (e : Event)
    (he : e ∈ checkEvs l) : ∃ r b, e = Event.checkEv r b := by
  induction l with
  | nil => simp [checkEvs] at he
  | cons p rest ih =>
    match p with
    | (pr, true) =>
      rcases List.mem_cons.mp he with h | h
      · exact ⟨pr, true, h⟩
      · exact ih h
    | (pr, false) =>
      simp [checkEvs] at he
      exact ⟨pr, false, he⟩

/-- When every check passes, the check event stream is one passing event per
relation. -/
theorem checkEvs_of_all_true (l : List (Rel × Bool))
    (h : l.all (fun p => p.2) = true) :
    checkEvs l = l.map (fun p => Event.checkEv p.1 true) := by
  induction l with
  | nil => rfl
  | cons p rest ih =>
    match p with
    | (pr, b) =>
      simp only [List.all_cons, Bool.and_eq_true] at h
      cases b with
      | true => simp [checkEvs, ih h.2]
      | false => cases h.1

/-- The overall check verdict fails exactly when some relation holds a stale
read. -/
theorem checkResults_all_false_iff (gs : GlobalState) (ws : WorkingSets) :
    ((checkResults gs ws).all (fun p => p.2) = false ↔
      ∃ r : Rel, ∃ kv ∈ (ws.rel r).reads,
        currentVersion (gs.rel r).cache kv.1 ≠ kv.2) := by
  rw [List.all_eq_false]
  constructor
  · rintro ⟨p, hp, hfalse⟩
    simp only [checkResults, List.mem_map] at hp
    rcases hp with ⟨r, _, rfl⟩
    simp only [Bool.not_eq_true] at hfalse
    exact ⟨r, (checkWS_false_iff _ _).mp hfalse⟩
  · rintro ⟨r, kv, hkv, hne⟩
    refine ⟨(r, checkWS (gs.rel r).cache (ws.rel r)), ?_, ?_⟩
    · exact List.mem_map.mpr ⟨r, mem_lockOrder r, rfl⟩
    · simp only [Bool.not_eq_true]
      exact (checkWS_false_iff _ _).mpr ⟨kv, hkv, hne⟩

/-- The shape of one pipeline trip when some check fails. -/
theorem processCommit_conflict_eq (gs : GlobalState) (ws : WorkingSets)
    (h : (checkResults gs ws).all (fun p => p.2) = false) :
    processCommit gs ws = (.ConflictRetry, gs,
      lockOrder.map Event.lockEv ++ checkEvs (checkResults gs ws) ++
        [.replyEv .ConflictRetry]) := by
  simp [processCommit, h]

/-- The shape of one pipeline trip when every check passes. -/
theorem processCommit_success_eq (gs : GlobalState) (ws : WorkingSets)
    (h : (checkResults gs ws).all (fun p => p.2) = true) :
    processCommit gs ws = (.Success, writeSeqs (applyAll gs ws),
      lockOrder.map Event.lockEv ++ checkEvs (checkResults gs ws) ++
        lockOrder.map Event.applyEv ++ (List.range 16).map Event.seqWriteEv ++
        [.persistEv, .replyEv .Success]) := by
  simp [processCommit, h]

/-- C1: the pipeline replies ConflictRetry exactly when some relation holds a
key in the transaction's read set (negative reads included) whose current
cache version differs from the version recorded at snapshot; and on
ConflictRetry the global state is returned unchanged - no staged write or
delete has been applied or flushed (the trace holds no apply event). -/
theorem processCommit_conflict_iff (gs : GlobalState) (ws : WorkingSets) :
    ((processCommit gs ws).1 = .ConflictRetry ↔
      ∃ r : Rel, ∃ kv ∈ (ws.rel r).reads,
        currentVersion (gs.rel r).cache kv.1 ≠ kv.2) ∧
    ((processCommit gs ws).1 = .ConflictRetry →
      (processCommit gs ws).2.1 = gs ∧
      ∀ r : Rel, Event.applyEv r ∉ (processCommit gs ws).2.2) := by
  cases hall : (checkResults gs ws).all (fun p => p.2) with
  | true =>
    rw [processCommit_success_eq gs ws hall]
    constructor
    · simp only [reduceCtorEq, false_iff]
      rw [← checkResults_all_false_iff gs ws]
      simp [hall]
    · intro h
      cases h
  | false =>
    rw [processCommit_conflict_eq gs ws hall]
    refine ⟨?_, ?_⟩
    · simpa using (checkResults_all_false_iff gs ws).mp hall
    · intro _
      refine ⟨rfl, ?_⟩
      intro r hmem
      simp only [List.mem_append, List.mem_map, List.mem_singleton] at hmem
      rcases hmem with (⟨r2, _, habs⟩ | habs) | habs
      · cases habs
      · rcases checkEvs_only_checks _ _ habs with ⟨r2, b, habs2⟩
        cases habs2
      · cases habs

/-- Filtering out one key leaves lookups of any other key unchanged. -/
theorem lookup_filter_ne {β : Type} (m : List (Nat × β)) (i j : Nat) (h : j ≠ i) :
    (m.filter (fun p => !(p.1 == i))).lookup j = m.lookup j := by
  induction m with
  | nil => rfl
  | cons p rest ih =>
    rcases p with ⟨k, v⟩
    by_cases hk : k = i
    · subst hk
      simp only [List.filter_cons, beq_self_eq_true, Bool.not_true, List.lookup_cons]
      have hj : (j == k) = false := by simpa using h
      simp [hj, ih]
    · have hcond : (!(k == i)) = true := by simp [hk]
      simp only [List.filter_cons, hcond, if_true, List.lookup_cons]
      by_cases hj : j = k
      · subst hj
        simp
      · have hjk : (j == k) = false := by simpa using hj
        simp [hjk, ih]

/-- Writing a set of keys not containing j leaves j's lookup unchanged. -/
theorem lookup_foldl_aput_not_mem {β : Type} (f : Nat → β) (l : List Nat) (j : Nat)
    (hj : j ∉ l) : ∀ m : List (Nat × β),
    (l.foldl (fun acc i => aput acc i (f i)) m).lookup j = m.lookup j := by
  induction l with
  | nil => intro m; rfl
  | cons i rest ih =>
    intro m
    have hji : j ≠ i := fun he => hj (he ▸ List.mem_cons_self i rest)
    have hjr : j ∉ rest := fun hr => hj (List.mem_cons_of_mem _ hr)
    rw [List.foldl_cons, ih hjr]
    have hbe : (j == i) = false := by simpa using hji
    simp only [aput, List.lookup_cons, hbe]
    exact lookup_filter_ne m i j hji

/-- After writing every key of l, each written key reads back its value. -/
theorem lookup_foldl_aput_mem {β : Type} (f : Nat → β) (l : List Nat) (j : Nat)
    (hj : j ∈ l) : ∀ m : List (Nat × β),
    (l.foldl (fun acc i => aput acc i (f i)) m).lookup j = some (f j) := by
  induction l with
  | nil => cases hj
  | cons i rest ih =>
    intro m
    rw [List.foldl_cons]
    by_cases hjr : j ∈ rest
    · exact ih hjr _
    · have hji : j = i := by
        rcases List.mem_cons.mp hj with h | h
        · exact h
        · exact absurd h hjr
      subst hji
      rw [lookup_foldl_aput_not_mem f rest j hjr]
      simp [aput]

/-- applyAll applies each relation's working set to that relation. -/
theorem applyAll_rel (gs : GlobalState) (ws : WorkingSets) (r : Rel) :
    (applyAll gs ws).rel r = applyRel (gs.rel r) (ws.rel r) := by
  cases r <;> rfl

/-- writeSeqs does not touch the relation caches. -/
theorem writeSeqs_rel (gs : GlobalState) (r : Rel) :
    (writeSeqs gs).rel r = gs.rel r := by
  cases r <;> rfl

/-- C2: when the pipeline replies Success, the trace is exactly locks, then
every check passing, then every relation applied (cache and backing store),
then all sixteen sequence writes, then the persist (fsync), and the Success
reply is the final event - never before the fsync. The resulting state carries
every relation's applied working set and a sequences partition holding all 16
slots, slot 15 being the monotonic transaction counter. -/
theorem processCommit_success_pipeline (gs : GlobalState) (ws : WorkingSets)
    (h : (processCommit gs ws).1 = .Success) :
    ((processCommit gs ws).2.2 =
      lockOrder.map Event.lockEv ++ lockOrder.map (fun r => Event.checkEv r true) ++
        lockOrder.map Event.applyEv ++ (List.range 16).map Event.seqWriteEv ++
        [.persistEv, .replyEv .Success]) ∧
    (∀ r : Rel, ((processCommit gs ws).2.1).rel r = applyRel (gs.rel r) (ws.rel r)) ∧
    (∀ i : Nat, i < 16 → ((processCommit gs ws).2.1).seqPartition.lookup i =
      some (if i = 15 then (gs.monotonic : Int) else gs.sequences i)) := by
  have hall : (checkResults gs ws).all (fun p => p.2) = true := by
    cases hall : (checkResults gs ws).all (fun p => p.2) with
    | true => rfl
    | false =>
      rw [processCommit_conflict_eq gs ws hall] at h
      cases h
  rw [processCommit_success_eq gs ws hall]
  refine ⟨?_, ?_, ?_⟩
  · rw [checkEvs_of_all_true _ hall]
    simp [checkResults, List.map_map, Function.comp]
  · intro r
    rw [writeSeqs_rel, applyAll_rel]
  · intro i hi
    have hmem : i ∈ List.range 16 := List.mem_range.mpr hi
    show ((writeSeqs (applyAll gs ws)).seqPartition.lookup i) = _
    unfold writeSeqs
    simp only []
    rw [lookup_foldl_aput_mem _ _ _ hmem]
    rfl

/-- An empty working set for every relation. -/
def ews : WorkingSets :=
  { object_location := ⟨[], [], []⟩
    object_contents := ⟨[], [], []⟩
    object_flags := ⟨[], [], []⟩
    object_parent := ⟨[], [], []⟩
    object_children := ⟨[], [], []⟩
    object_owner := ⟨[], [], []⟩
    object_name := ⟨[], [], []⟩
    object_verbdefs := ⟨[], [], []⟩
    object_verbs := ⟨[], [], []⟩
    object_propdefs := ⟨[], [], []⟩
    object_propvalues := ⟨[], [], []⟩
    object_propflags := ⟨[], [], []⟩ }

/-- A small concrete global state: empty caches, monotonic counter 5. -/
def egs : GlobalState :=
  { object_location := ⟨[], []⟩
    object_contents := ⟨[], []⟩
    object_flags := ⟨[], []⟩
    object_parent := ⟨[], []⟩
    object_children := ⟨[], []⟩
    object_owner := ⟨[], []⟩
    object_name := ⟨[], []⟩
    object_verbdefs := ⟨[], []⟩
    object_verbs := ⟨[], []⟩
    object_propdefs := ⟨[], []⟩
    object_propvalues := ⟨[], []⟩
    object_propflags := ⟨[], []⟩
    sequences := fun _ => 0
    seqPartition := []
    monotonic := 5 }

/-- A working set whose object_flags read of key 0 recorded version 1. -/
def cws : WorkingSets := { ews with object_flags := ⟨[(0, 1)], [], []⟩ }

/-- A global state whose object_flags cache holds key 0 at version 2, stale
against the snapshot recorded in cws. -/
def cgs : GlobalState := { egs with object_flags := ⟨[(0, ⟨2, some 7⟩)], []⟩ }

/-- Witness for C1: the stale read of key 0 in object_flags forces
ConflictRetry and the global state comes back unchanged. -/
theorem processCommit_conflict_iff_witness :
    (processCommit cgs cws).1 = .ConflictRetry ∧ (processCommit cgs cws).2.1 = cgs := by
  have h := processCommit_conflict_iff cgs cws
  have hres : (processCommit cgs cws).1 = .ConflictRetry :=
    h.1.mpr ⟨.oflags, (0, 1), by decide, by decide⟩
  exact ⟨hres, (h.2 hres).1⟩

/-- Witness for C2: an all-empty commit succeeds; slot 15 of the sequences
partition then reads back the monotonic counter 5. -/
theorem processCommit_success_pipeline_witness :
    ((processCommit egs ews).2.1).seqPartition.lookup 15 = some (5 : Int) := by
  have h := processCommit_success_pipeline egs ews (by rfl)
  have h15 := h.2.2 15 (by decide)
  simpa using h15

/-- C3 (amended): the pipeline acquires each relation's global-cache mutex
exactly once, all of them before any check or apply, in the fixed code order
flags, parent, children, owner, location, contents, name, verbdefs, verbs,
propdefs, propvalues, propflags. -/
theorem lock_discipline (gs : GlobalState) (ws : WorkingSets) :
    ∃ rest, (processCommit gs ws).2.2 = lockOrder.map Event.lockEv ++ rest ∧
      (∀ e ∈ rest, ∀ r : Rel, e ≠ Event.lockEv r) ∧
      lockOrder.Nodup ∧ (∀ r : Rel, r ∈ lockOrder) := by
  cases hall : (checkResults gs ws).all (fun p => p.2) with
  | true =>
    rw [processCommit_success_eq gs ws hall]
    refine ⟨checkEvs (checkResults gs ws) ++ lockOrder.map Event.applyEv ++
      (List.range 16).map Event.seqWriteEv ++ [.persistEv, .replyEv .Success],
      by simp, ?_, by decide, mem_lockOrder⟩
    intro e he r
    simp only [List.mem_append, List.mem_map, List.mem_cons,
      List.mem_singleton] at he
    rcases he with ((he | ⟨r2, _, rfl⟩) | ⟨i, _, rfl⟩) | (rfl | rfl | he)
    · rcases checkEvs_only_checks _ _ he with ⟨r2, b, rfl⟩
      simp
    · simp
    · simp
    · simp
    · simp
    · cases he
  | false =>
    rw [processCommit_conflict_eq gs ws hall]
    refine ⟨checkEvs (checkResults gs ws) ++ [.replyEv .ConflictRetry],
      by simp, ?_, by decide, mem_lockOrder⟩
    intro e he r
    simp only [List.mem_append, List.mem_singleton] at he
    rcases he with he | rfl
    · rcases checkEvs_only_checks _ _ he with ⟨r2, b, rfl⟩
      simp
    · simp

/-- The lock order the claim asserts: the order of rows of the section 4.A
relation table (written from the claim's words, for comparison with the
code's lockOrder). -/
def specClaimedLockOrder : List Rel :=
  [.olocation, .ocontents, .oflags, .oparent, .ochildren, .oowner,
   .oname, .overbdefs, .overbs, .opropdefs, .opropvalues, .opropflags]

/-- Counterexample to C3 as stated: the locks acquired (the twelve-event
prefix of a concrete commit's trace) follow the code's order, which is not
the claimed table order - the pipeline locks object_flags first, not
object_location. -/
theorem lock_order_differs_cex :
    (processCommit egs ews).2.2.take 12 = lockOrder.map Event.lockEv ∧
    lockOrder ≠ specClaimedLockOrder ∧
    (processCommit egs ews).2.2.take 12 ≠ specClaimedLockOrder.map Event.lockEv := by
  refine ⟨by decide, by decide, by decide⟩

/-- Witness for the amended C3 at a concrete commit. -/
theorem lock_discipline_witness :
    (processCommit egs ews).2.2.take 12 =
      [Event.lockEv .oflags, Event.lockEv .oparent, Event.lockEv .ochildren,
       Event.lockEv .oowner, Event.lockEv .olocation, Event.lockEv .ocontents,
       Event.lockEv .oname, Event.lockEv .overbdefs, Event.lockEv .overbs,
       Event.lockEv .opropdefs, Event.lockEv .opropvalues, Event.lockEv .opropflags] := by
  rcases lock_discipline egs ews with ⟨rest, heq, -, -, -⟩
  rw [heq, show (12 : Nat) = (lockOrder.map Event.lockEv).length from rfl,
    List.take_left]
  rfl

end Moor
